import Mathlib

/-!
Verification development for the page-curl renderer
(pagecurl/src/main/cpp/page_curl_renderer.{h,cpp}).

The renderer's per-vertex curl math (the GLSL vertex shader kCurlVert) is
embedded over the real numbers; the frame compositor (drawForward,
drawBackward and their helper passes) is embedded as explicit traces of
pass descriptors and GL operations over the rationals, so that they stay
decidable.  Machine floats are modelled by exact arithmetic.

Note on the sources: page_curl_renderer.h declares the diagonal-fold
variant of the API (drawForward(foldX, foldSlope), drawCurl with a
foldSlope argument, a mUFoldSlope uniform handle, and pre-allocated
shadow gradient textures mRevealShadowTex / mFlatShadowTex created once
in onSurfaceCreated), while page_curl_renderer.cpp defines the simpler
vertical-fold variant: its shader has no fold-slope uniform, drawForward
and drawBackward take a single foldX argument, and both shadow helpers
generate, upload and delete a temporary 2x1 gradient texture on every
call.  The definitions below embed the .cpp definitions; where a claim
speaks about the declared diagonal behaviour, a separate definition
modelled from the spec text is introduced and clearly marked.
-/

namespace PageCurl

open Real

/-- Cylinder radius constant CURL_RADIUS = 0.065f from page_curl_renderer.h. -/
noncomputable def CURL_RADIUS : ℝ := 0.065

/-- Mesh subdivision constant MESH_COLS = 64 from page_curl_renderer.h. -/
def MESH_COLS : ℕ := 64

/-- Mesh subdivision constant MESH_ROWS = 32 from page_curl_renderer.h. -/
def MESH_ROWS : ℕ := 32

/-- Texture slot index TEX_CURRENT = 0. -/
def TEX_CURRENT : Fin 3 := 0

/-- Texture slot index TEX_NEXT = 1. -/
def TEX_NEXT : Fin 3 := 1

/-- Texture slot index TEX_PREV = 2. -/
def TEX_PREV : Fin 3 := 2

/-- Position of the mesh vertex generated for grid row r, column c by
buildMesh: u = c / MESH_COLS, v = r / MESH_ROWS, position = (u, v). -/
def meshVertexPos (r c : ℕ) : ℚ × ℚ :=
  ((c : ℚ) / (MESH_COLS : ℚ), (r : ℚ) / (MESH_ROWS : ℚ))

/-- The clamped curl angle of the kCurlVert shader:
theta = min(dx / uRadius, PI), from line 40 of page_curl_renderer.cpp. -/
noncomputable def curlTheta (radius dx : ℝ) : ℝ :=
  min (dx / radius) Real.pi

/-- The per-vertex shadow intensity computed by the kCurlVert shader:
vShadow = uDarken * sin(theta) when dx > 0, and 0 otherwise
(lines 39-55 of page_curl_renderer.cpp). -/
noncomputable def shadowFactor (radius darken dx : ℝ) : ℝ :=
  if 0 < dx then darken * Real.sin (curlTheta radius dx) else 0

/-- Output interface of the kCurlVert vertex shader: gl_Position components
(with w = 1), the varying vUV, and the varying vShadow. -/
structure CurlOut where
  ndcX : ℝ
  ndcY : ℝ
  ndcZ : ℝ
  uvX : ℝ
  uvY : ℝ
  shadow : ℝ

/-- Output interface of the kFlatVert vertex shader. -/
structure FlatOut where
  ndcX : ℝ
  ndcY : ℝ
  ndcZ : ℝ
  uvX : ℝ
  uvY : ℝ

/-- Embedding of the kCurlVert shader body (page_curl_renderer.cpp lines
33-63).  dx = aPos.x - uFoldX; vertices with dx > 0 are mapped onto the
cylinder x = uFoldX + uRadius * sin(theta), z = uRadius * (1 - cos(theta)),
with the UV mirrored and clamped in back-face mode and
vShadow = uDarken * sin(theta); vertices with dx <= 0 are passed through
with vShadow = 0 (and z = 0, so the NDC z component -z * 0.5 is 0).
Finally gl_Position = (pos.x * 2 - 1, 1 - pos.y * 2, -z * 0.5, 1).
Note the shader reads no fold-slope uniform: dx depends only on aPos.x
and uFoldX, never on aPos.y. -/
noncomputable def curlVert (foldX radius darken : ℝ) (backFace : Bool)
    (pos uv : ℝ × ℝ) : CurlOut :=
  if 0 < pos.1 - foldX then
    { ndcX := (foldX + radius * Real.sin (curlTheta radius (pos.1 - foldX))) * 2 - 1
      ndcY := 1 - pos.2 * 2
      ndcZ := -(radius * (1 - Real.cos (curlTheta radius (pos.1 - foldX)))) * 0.5
      uvX := if backFace then min (max (2 * foldX - uv.1) 0) 1 else uv.1
      uvY := uv.2
      shadow := darken * Real.sin (curlTheta radius (pos.1 - foldX)) }
  else
    { ndcX := pos.1 * 2 - 1
      ndcY := 1 - pos.2 * 2
      ndcZ := -(0 : ℝ) * 0.5
      uvX := uv.1
      uvY := uv.2
      shadow := 0 }

/-- Embedding of the kFlatVert shader body (page_curl_renderer.cpp lines
84-98): gl_Position = (aPos.x * 2 - 1, 1 - aPos.y * 2, 0, 1), vUV = aUV. -/
noncomputable def flatVert (pos uv : ℝ × ℝ) : FlatOut :=
  { ndcX := pos.1 * 2 - 1
    ndcY := 1 - pos.2 * 2
    ndcZ := 0
    uvX := uv.1
    uvY := uv.2 }

/-- Modelled from the spec: the local fold-line x of the diagonal-fold
variant, foldLineX = foldX + foldSlope * (y - 0.5).  The diagonal-fold
shader body is absent from the sources: page_curl_renderer.h declares the
fold-slope API (drawCurl with a foldSlope argument, the mUFoldSlope
handle) but the shader defined in page_curl_renderer.cpp has no
fold-slope uniform.  This definition follows the spec sentence only and
is used to compare the claimed behaviour with the embedded shader. -/
noncomputable def specFoldLineX (foldX foldSlope y : ℝ) : ℝ :=
  foldX + foldSlope * (y - 0.5)

/-- An uploaded page image: raw RGBA bytes plus pixel dimensions,
as accepted by setTexture. -/
structure Image where
  rgba : List ℕ
  width : ℕ
  height : ℕ
deriving DecidableEq

/-- Embedding of PageCurlRenderer::setTexture (page_curl_renderer.cpp
lines 266-273) acting on the contents of the three texture slots:
if (slot < 0 || slot >= 3) return;  otherwise glTexImage2D replaces the
whole image of exactly that slot. -/
def setTexture (tex : Fin 3 → Option Image) (slot : ℤ)
    (rgba : List ℕ) (w h : ℕ) : Fin 3 → Option Image :=
  if slot < 0 ∨ 3 ≤ slot then tex
  else fun i => if (i : ℤ) = slot then some ⟨rgba, w, h⟩ else tex i

/-- The GL handle state of the renderer that the draw passes consult:
the curl program handle mProgram, the flat program handle mFlatProgram,
and the three page texture object names mTextures (0 = not allocated). -/
structure RendererState where
  program : ℕ
  flatProgram : ℕ
  textures : Fin 3 → ℕ

/-- State produced by onSurfaceCreated (page_curl_renderer.cpp lines
226-257): each program handle is the (nonzero) name returned by
createProgram on success and 0 when compilation or linking failed, and
glGenTextures fills mTextures with three fresh nonzero texture names
(modelled as 3, 4, 5) regardless of whether pixels are ever uploaded. -/
def surfaceCreatedState (curlOk flatOk : Bool) : RendererState :=
  { program := if curlOk then 1 else 0
    flatProgram := if flatOk then 2 else 0
    textures := fun i => 3 + (i : ℕ) }

/-- One pass of the frame compositor, at the granularity of the helper
calls inside drawForward / drawBackward.  Curl parameters are carried
exactly as the .cpp passes them (slot, foldX, backFace, darken). -/
inductive Pass where
  | clear : Pass
  | flat : Fin 3 → Pass
  | curl : Fin 3 → ℚ → Bool → ℚ → Pass
  | revealShadow : ℚ → Pass
  | flatShadow : ℚ → Pass
deriving DecidableEq

/-- Trace of PageCurlRenderer::drawFlat (page_curl_renderer.cpp lines
300-308): returns without drawing when mFlatProgram is 0 or the slot's
texture name is 0, otherwise performs one flat textured draw. -/
def drawFlatPass (s : RendererState) (slot : Fin 3) : List Pass :=
  if s.flatProgram = 0 ∨ s.textures slot = 0 then []
  else [Pass.flat slot]

/-- Trace of PageCurlRenderer::drawCurl (page_curl_renderer.cpp lines
310-335): returns without drawing when mProgram is 0 or the slot's
texture name is 0, otherwise performs one curl draw with the given
fold position, face selection, and darken intensity. -/
def drawCurlPass (s : RendererState) (slot : Fin 3) (foldX : ℚ)
    (backFace : Bool) (darken : ℚ) : List Pass :=
  if s.program = 0 ∨ s.textures slot = 0 then []
  else [Pass.curl slot foldX backFace darken]

/-- Trace of drawRevealShadow at pass granularity: the function has no
early return, so it always contributes its pass. -/
def drawRevealShadowPass (foldX : ℚ) : List Pass :=
  [Pass.revealShadow foldX]

/-- Trace of drawFlatShadow at pass granularity: the function has no
early return, so it always contributes its pass. -/
def drawFlatShadowPass (foldX : ℚ) : List Pass :=
  [Pass.flatShadow foldX]

/-- Trace of PageCurlRenderer::drawForward(foldX) (page_curl_renderer.cpp
lines 343-363): glClear, then (1) next page flat if its texture name is
set, (2) reveal shadow at foldX, (3) current page curl back face darken
0.15, (4) current page curl front face darken 0.35, (5) flat shadow at
foldX.  The .cpp drawForward takes no fold-slope argument. -/
def drawForwardTrace (s : RendererState) (foldX : ℚ) : List Pass :=
  Pass.clear ::
    ((if s.textures TEX_NEXT ≠ 0 then drawFlatPass s TEX_NEXT else []) ++
     drawRevealShadowPass foldX ++
     drawCurlPass s TEX_CURRENT foldX true 0.15 ++
     drawCurlPass s TEX_CURRENT foldX false 0.35 ++
     drawFlatShadowPass foldX)

/-- Trace of PageCurlRenderer::drawBackward(foldX) (page_curl_renderer.cpp
lines 367-389): glClear, then (1) current page flat if its texture name
is set, (2) reveal shadow at the UNMIRRORED foldX, (3) previous page curl
back face at mirrorFoldX = 1 - foldX, darken 0.15, (4) previous page curl
front face at mirrorFoldX, darken 0.35, (5) flat shadow at mirrorFoldX.
The .cpp drawBackward takes no fold-slope argument. -/
def drawBackwardTrace (s : RendererState) (foldX : ℚ) : List Pass :=
  Pass.clear ::
    ((if s.textures TEX_CURRENT ≠ 0 then drawFlatPass s TEX_CURRENT else []) ++
     drawRevealShadowPass foldX ++
     drawCurlPass s TEX_PREV (1 - foldX) true 0.15 ++
     drawCurlPass s TEX_PREV (1 - foldX) false 0.35 ++
     drawFlatShadowPass (1 - foldX))

/-- GL operations issued inside the shadow helpers, at the granularity
needed to observe texture lifetime: program binding, texture binding
(bindFreshTexture stands for binding the texture name just generated),
texture creation, parameter setup, pixel upload (with the raw gradient
bytes), the triangle-strip draw of the quad from x0 to x1 spanning the
full height, and texture deletion. -/
inductive GLOp where
  | useProgram : ℕ → GLOp
  | activeTexture : ℕ → GLOp
  | bindTexture : ℕ → GLOp
  | bindFreshTexture : GLOp
  | genTexture : GLOp
  | texParams : GLOp
  | texImage2D : ℕ → ℕ → List ℕ → GLOp
  | uniform1i : ℤ → ℤ → GLOp
  | drawArraysStrip : ℚ → ℚ → GLOp
  | deleteTexture : GLOp
deriving DecidableEq

/-- GL operation trace of PageCurlRenderer::drawRevealShadow
(page_curl_renderer.cpp lines 400-453): bind the flat program, generate a
temporary texture, upload the 2x1 gradient {0,0,0,90, 0,0,0,0}, draw the
strip quad from x0 = foldX to x1 = foldX + 0.04, then delete the
temporary texture.  There is no guard on the flat program handle. -/
def drawRevealShadowOps (flatProgram : ℕ) (uFlatTex : ℤ) (foldX : ℚ) :
    List GLOp :=
  [ GLOp.useProgram flatProgram
  , GLOp.activeTexture 0
  , GLOp.bindTexture 0
  , GLOp.genTexture
  , GLOp.bindFreshTexture
  , GLOp.texParams
  , GLOp.texImage2D 2 1 [0, 0, 0, 90, 0, 0, 0, 0]
  , GLOp.uniform1i uFlatTex 0
  , GLOp.drawArraysStrip foldX (foldX + 0.04)
  , GLOp.deleteTexture
  , GLOp.bindTexture 0 ]

/-- GL operation trace of PageCurlRenderer::drawFlatShadow
(page_curl_renderer.cpp lines 455-496): generate a temporary texture,
upload the 2x1 gradient {0,0,0,0, 0,0,0,60}, bind the flat program, draw
the strip quad from x0 = foldX - 0.03 to x1 = foldX, then delete the
temporary texture.  There is no guard on the flat program handle. -/
def drawFlatShadowOps (flatProgram : ℕ) (uFlatTex : ℤ) (foldX : ℚ) :
    List GLOp :=
  [ GLOp.genTexture
  , GLOp.bindFreshTexture
  , GLOp.texParams
  , GLOp.texImage2D 2 1 [0, 0, 0, 0, 0, 0, 0, 60]
  , GLOp.useProgram flatProgram
  , GLOp.activeTexture 0
  , GLOp.bindFreshTexture
  , GLOp.uniform1i uFlatTex 0
  , GLOp.drawArraysStrip (foldX - 0.03) foldX
  , GLOp.deleteTexture
  , GLOp.bindTexture 0 ]

/-- Fully initialized renderer state: both programs linked and all three
page texture names allocated by onSurfaceCreated. -/
def sAll : RendererState := surfaceCreatedState true true

/-- C1: the claim states that the curl transform computes a per-row fold
line foldLineX = foldX + foldSlope * (y - 0.5) and leaves vertices with
dx = x - foldLineX <= 0 untransformed.  The shader defined in
page_curl_renderer.cpp has no fold-slope uniform: its fold test depends
only on x and foldX, never on y (first conjunct), and at the concrete
input foldX = 0.5, foldSlope = 0.2, vertex (0.45, 0) the claimed fold
line is at 0.4 so the claim predicts a transformed vertex (dx = 0.05 >
0), yet the shader leaves the vertex untransformed with shadow 0. -/
theorem claim1_shader_ignores_fold_slope :
    (∀ (foldX radius darken : ℝ) (b : Bool) (x y y2 u v : ℝ),
      (curlVert foldX radius darken b (x, y) (u, v)).shadow =
        (curlVert foldX radius darken b (x, y2) (u, v)).shadow ∧
      (curlVert foldX radius darken b (x, y) (u, v)).ndcX =
        (curlVert foldX radius darken b (x, y2) (u, v)).ndcX) ∧
    (curlVert 0.5 CURL_RADIUS 0.35 false (0.45, 0) (0.45, 0)).shadow = 0 ∧
    (curlVert 0.5 CURL_RADIUS 0.35 false (0.45, 0) (0.45, 0)).ndcX =
      0.45 * 2 - 1 ∧
    specFoldLineX 0.5 0.2 0 = 0.4 ∧
    0 < 0.45 - specFoldLineX 0.5 0.2 0 := by
  refine ⟨?_, ?_, ?_, ?_, ?_⟩
  · intro foldX radius darken b x y y2 u v
    by_cases h : 0 < x - foldX <;> simp [curlVert, h]
  · have h : ¬ (0 < (0.45 : ℝ) - 0.5) := by norm_num
    simp [curlVert, h]
  · have h : ¬ (0 < (0.45 : ℝ) - 0.5) := by norm_num
    simp [curlVert, h]
  · norm_num [specFoldLineX]
  · norm_num [specFoldLineX]

/-- C2: the claim states that drawBackward mirrors the curl parameters of
every fold-dependent pass as mirrorFoldX = 1 - foldX and
mirrorSlope = -foldSlope.  In page_curl_renderer.cpp, drawBackward takes
no fold-slope argument at all and passes the UNMIRRORED foldX to the
reveal-shadow pass: at foldX = 0.2 the full trace places the reveal
shadow at 0.2 while the curl and flat-shadow passes run at the mirrored
0.8, and no reveal-shadow pass at the mirrored position occurs. -/
theorem claim2_backward_reveal_shadow_not_mirrored :
    drawBackwardTrace sAll 0.2 =
      [Pass.clear, Pass.flat TEX_CURRENT, Pass.revealShadow 0.2,
       Pass.curl TEX_PREV 0.8 true 0.15, Pass.curl TEX_PREV 0.8 false 0.35,
       Pass.flatShadow 0.8] ∧
    Pass.revealShadow (1 - 0.2) ∉ drawBackwardTrace sAll 0.2 := by
  constructor
  · norm_num [drawBackwardTrace, drawFlatPass, drawCurlPass,
      drawRevealShadowPass, drawFlatShadowPass, sAll, surfaceCreatedState,
      TEX_CURRENT, TEX_PREV]
  · norm_num [drawBackwardTrace, drawFlatPass, drawCurlPass,
      drawRevealShadowPass, drawFlatShadowPass, sAll, surfaceCreatedState,
      TEX_CURRENT, TEX_PREV]
    simp

/-- C3: every call to drawForward on an initialized renderer (both
programs linked, CURRENT and NEXT textures allocated) executes exactly
the five passes in the fixed order: NEXT flat, reveal shadow, CURRENT
curl back face at darken 0.15, CURRENT curl front face at darken 0.35,
flat shadow. -/
theorem claim3_forward_five_pass_order (s : RendererState) (foldX : ℚ)
    (hp : s.program ≠ 0) (hf : s.flatProgram ≠ 0)
    (hc : s.textures TEX_CURRENT ≠ 0) (hn : s.textures TEX_NEXT ≠ 0) :
    drawForwardTrace s foldX =
      [Pass.clear, Pass.flat TEX_NEXT, Pass.revealShadow foldX,
       Pass.curl TEX_CURRENT foldX true 0.15,
       Pass.curl TEX_CURRENT foldX false 0.35,
       Pass.flatShadow foldX] := by
  simp [drawForwardTrace, drawFlatPass, drawCurlPass, drawRevealShadowPass,
    drawFlatShadowPass, hp, hf, hc, hn]

/-- Witness for C3: the five-pass order at foldX = 1/2 on the fully
initialized state. -/
theorem claim3_forward_five_pass_order_witness :
    drawForwardTrace sAll (1/2) =
      [Pass.clear, Pass.flat TEX_NEXT, Pass.revealShadow (1/2),
       Pass.curl TEX_CURRENT (1/2) true 0.15,
       Pass.curl TEX_CURRENT (1/2) false 0.35,
       Pass.flatShadow (1/2)] :=
  claim3_forward_five_pass_order sAll (1/2) (by decide) (by decide)
    (by decide) (by decide)

/-- C4: the claim states the two shadow gradient textures are created
once at surface-creation time and that no draw call ever creates,
re-uploads, or deletes a shadow gradient texture.  In
page_curl_renderer.cpp every call to drawRevealShadow and drawFlatShadow
generates a temporary texture, uploads its 2x1 gradient, and deletes the
texture again, as their operation traces show. -/
theorem claim4_shadow_texture_created_per_draw :
    GLOp.genTexture ∈ drawRevealShadowOps 2 0 0.5 ∧
    GLOp.texImage2D 2 1 [0, 0, 0, 90, 0, 0, 0, 0] ∈
      drawRevealShadowOps 2 0 0.5 ∧
    GLOp.deleteTexture ∈ drawRevealShadowOps 2 0 0.5 ∧
    GLOp.genTexture ∈ drawFlatShadowOps 2 0 0.5 ∧
    GLOp.texImage2D 2 1 [0, 0, 0, 0, 0, 0, 0, 60] ∈
      drawFlatShadowOps 2 0 0.5 ∧
    GLOp.deleteTexture ∈ drawFlatShadowOps 2 0 0.5 := by
  refine ⟨?_, ?_, ?_, ?_, ?_, ?_⟩ <;>
    simp [drawRevealShadowOps, drawFlatShadowOps]

/-- C8 counterexample: in drawForward(0.0) the claim asserts theta
reaches pi for every vertex strictly right of the fold.  The mesh vertex
at row 0, column 1 sits at x = 1/64 > 0, yet its curl angle
min((1/64) / 0.065, pi) is strictly below pi; the trace of
drawForward(0) does run the curl pass at foldX = 0. -/
theorem claim8_theta_below_pi_near_fold :
    0 < ((meshVertexPos 0 1).1 : ℝ) - 0 ∧
    curlTheta CURL_RADIUS (((meshVertexPos 0 1).1 : ℝ) - 0) < Real.pi ∧
    Pass.curl TEX_CURRENT 0 true 0.15 ∈ drawForwardTrace sAll 0 := by
  have hdx : (((meshVertexPos 0 1).1 : ℝ) - 0) = 1 / 64 := by
    norm_num [meshVertexPos, MESH_COLS]
  refine ⟨by rw [hdx]; norm_num, ?_, by
    norm_num [drawForwardTrace, drawFlatPass, drawCurlPass,
      drawRevealShadowPass, drawFlatShadowPass, sAll, surfaceCreatedState,
      TEX_CURRENT, TEX_NEXT]⟩
  rw [hdx]
  have h1 : (1 / 64 : ℝ) / CURL_RADIUS < 3 := by norm_num [CURL_RADIUS]
  calc curlTheta CURL_RADIUS (1 / 64 : ℝ)
      ≤ (1 / 64 : ℝ) / CURL_RADIUS := min_le_left _ _
    _ < 3 := h1
    _ < Real.pi := Real.pi_gt_three

/-- C8 amended: in drawForward(0.0) the curl angle reaches pi exactly for
the vertices at distance at least CURL_RADIUS * pi right of the fold
line, and the NEXT slot is drawn flat as the base layer. -/
theorem claim8_theta_pi_beyond_radius_pi (x : ℝ)
    (hx : CURL_RADIUS * Real.pi ≤ x) :
    curlTheta CURL_RADIUS (x - 0) = Real.pi ∧
    Pass.flat TEX_NEXT ∈ drawForwardTrace sAll 0 := by
  constructor
  · have hr : (0 : ℝ) < CURL_RADIUS := by norm_num [CURL_RADIUS]
    have hle : Real.pi ≤ (x - 0) / CURL_RADIUS := by
      rw [le_div_iff₀ hr]
      nlinarith
    exact min_eq_right hle
  · norm_num [drawForwardTrace, drawFlatPass, drawCurlPass,
      drawRevealShadowPass, drawFlatShadowPass, sAll, surfaceCreatedState,
      TEX_NEXT]

/-- Witness for the amended C8: the right page edge x = 1 is past the
full-wrap distance, so its curl angle is exactly pi. -/
theorem claim8_theta_pi_beyond_radius_pi_witness :
    curlTheta CURL_RADIUS ((1 : ℝ) - 0) = Real.pi ∧
    Pass.flat TEX_NEXT ∈ drawForwardTrace sAll 0 :=
  claim8_theta_pi_beyond_radius_pi 1
    (by
      show (0.065 : ℝ) * Real.pi ≤ 1
      linarith [Real.pi_lt_d2])

/-- C9: setTexture with a slot outside 0..2 leaves all three slots
untouched and raises nothing; with a valid slot it replaces exactly that
slot's image. -/
theorem claim9_set_texture_slot_guard :
    (∀ (tex : Fin 3 → Option Image) (slot : ℤ) (rgba : List ℕ) (w h : ℕ),
        slot < 0 ∨ 3 ≤ slot → setTexture tex slot rgba w h = tex) ∧
    (∀ (tex : Fin 3 → Option Image) (slot : ℤ) (rgba : List ℕ) (w h : ℕ),
        0 ≤ slot → slot < 3 → ∀ i : Fin 3,
          setTexture tex slot rgba w h i =
            if (i : ℤ) = slot then some ⟨rgba, w, h⟩ else tex i) := by
  constructor
  · intro tex slot rgba w h hbad
    simp [setTexture, hbad]
  · intro tex slot rgba w h h0 h3 i
    have hok : ¬ (slot < 0 ∨ 3 ≤ slot) := by omega
    simp [setTexture, hok]

/-- Witness for C9: slot 5 on an empty store is a no-op, and slot 0
stores the uploaded image in TEX_CURRENT. -/
theorem claim9_set_texture_slot_guard_witness :
    setTexture (fun _ => none) 5 [1, 2, 3, 4] 1 1 = (fun _ => none) ∧
    setTexture (fun _ => none) 0 [1, 2, 3, 4] 1 1 TEX_CURRENT =
      some ⟨[1, 2, 3, 4], 1, 1⟩ := by
  constructor
  · exact claim9_set_texture_slot_guard.1 _ 5 _ _ _ (by norm_num)
  · have h := claim9_set_texture_slot_guard.2 (fun _ => none) 0 [1, 2, 3, 4]
      1 1 (by norm_num) (by norm_num) TEX_CURRENT
    simpa [TEX_CURRENT] using h

/-- C10 counterexample: the claim states that when the Flat program
failed to link (handle 0) the shadow-strip passes issue no draw.  In
page_curl_renderer.cpp both shadow helpers have no guard on the program
handle: with flatProgram = 0 (and the uniform handle at its -1 default)
they still bind program 0 and issue their triangle-strip draw. -/
theorem claim10_shadow_pass_draws_with_zero_program :
    GLOp.useProgram 0 ∈ drawRevealShadowOps 0 (-1) 0.5 ∧
    GLOp.drawArraysStrip 0.5 (0.5 + 0.04) ∈ drawRevealShadowOps 0 (-1) 0.5 ∧
    GLOp.drawArraysStrip (0.5 - 0.03) 0.5 ∈ drawFlatShadowOps 0 (-1) 0.5 := by
  refine ⟨?_, ?_, ?_⟩ <;> simp [drawRevealShadowOps, drawFlatShadowOps]

/-- C10 amended: a failed program leaves its handle 0 after
surfaceCreated; drawCurl and drawFlat are silent no-ops whenever their
program handle or the slot's texture name is 0; the shadow-strip passes,
by contrast, issue their draw unconditionally.  (The texture guard tests
the GL name allocated in surfaceCreated, not whether pixels were ever
uploaded.) -/
theorem claim10_no_op_guards :
    ((surfaceCreatedState false true).program = 0 ∧
     (surfaceCreatedState true false).flatProgram = 0 ∧
     ∀ i : Fin 3, (surfaceCreatedState false false).textures i ≠ 0) ∧
    (∀ (s : RendererState) (slot : Fin 3) (foldX : ℚ) (b : Bool) (d : ℚ),
        s.program = 0 ∨ s.textures slot = 0 →
          drawCurlPass s slot foldX b d = []) ∧
    (∀ (s : RendererState) (slot : Fin 3),
        s.flatProgram = 0 ∨ s.textures slot = 0 → drawFlatPass s slot = []) ∧
    (∀ (p : ℕ) (u : ℤ) (f : ℚ),
        GLOp.drawArraysStrip f (f + 0.04) ∈ drawRevealShadowOps p u f) := by
  refine ⟨by decide, ?_, ?_, ?_⟩
  · intro s slot foldX b d h
    unfold drawCurlPass
    exact if_pos h
  · intro s slot h
    unfold drawFlatPass
    exact if_pos h
  · intro p u f
    simp [drawRevealShadowOps]

/-- Witness for the amended C10: with a failed curl program the curl pass
draws nothing, with a failed flat program the flat pass draws nothing,
and the reveal-shadow pass still issues its draw under program 0. -/
theorem claim10_no_op_guards_witness :
    drawCurlPass (surfaceCreatedState false true) TEX_CURRENT 0.5 true 0.15 =
      [] ∧
    drawFlatPass (surfaceCreatedState true false) TEX_NEXT = [] ∧
    GLOp.drawArraysStrip 0.25 (0.25 + 0.04) ∈ drawRevealShadowOps 0 (-1) 0.25 := by
  refine ⟨?_, ?_, ?_⟩
  · exact claim10_no_op_guards.2.1 _ _ _ _ _ (Or.inl (by decide))
  · exact claim10_no_op_guards.2.2.1 _ _ (Or.inl (by decide))
  · exact claim10_no_op_guards.2.2.2 0 (-1) 0.25

/-- Unfolding of the curl shader on a vertex right of the fold line. -/
theorem curlVert_pos_eq (foldX radius darken : ℝ) (b : Bool) (x y u v : ℝ)
    (h : 0 < x - foldX) :
    curlVert foldX radius darken b (x, y) (u, v) =
      { ndcX := (foldX + radius * Real.sin (curlTheta radius (x - foldX))) * 2 - 1
        ndcY := 1 - y * 2
        ndcZ := -(radius * (1 - Real.cos (curlTheta radius (x - foldX)))) * 0.5
        uvX := if b then min (max (2 * foldX - u) 0) 1 else u
        uvY := v
        shadow := darken * Real.sin (curlTheta radius (x - foldX)) } := by
  simp [curlVert, h]

/-- Unfolding of the curl shader on a vertex at or left of the fold line. -/
theorem curlVert_nonpos_eq (foldX radius darken : ℝ) (b : Bool) (x y u v : ℝ)
    (h : ¬ 0 < x - foldX) :
    curlVert foldX radius darken b (x, y) (u, v) =
      { ndcX := x * 2 - 1
        ndcY := 1 - y * 2
        ndcZ := -(0 : ℝ) * 0.5
        uvX := u
        uvY := v
        shadow := 0 } := by
  simp [curlVert, h]

/-- C5: for a vertex in the unit square, a fold position in the unit
interval and a positive radius, the curl shader's NDC x and y components
both lie in the square from -1 to 1, and the y component is exactly the
flipped 1 - y * 2 of the input row. -/
theorem claim5_ndc_in_square (foldX radius darken : ℝ) (b : Bool)
    (x y u v : ℝ) (hx0 : 0 ≤ x) (hx1 : x ≤ 1) (hy0 : 0 ≤ y) (hy1 : y ≤ 1)
    (hf0 : 0 ≤ foldX) (hf1 : foldX ≤ 1) (hr : 0 < radius) :
    (curlVert foldX radius darken b (x, y) (u, v)).ndcY = 1 - y * 2 ∧
    -1 ≤ (curlVert foldX radius darken b (x, y) (u, v)).ndcX ∧
    (curlVert foldX radius darken b (x, y) (u, v)).ndcX ≤ 1 ∧
    -1 ≤ (curlVert foldX radius darken b (x, y) (u, v)).ndcY ∧
    (curlVert foldX radius darken b (x, y) (u, v)).ndcY ≤ 1 := by
  by_cases h : 0 < x - foldX
  · have hθ0 : 0 ≤ curlTheta radius (x - foldX) :=
      le_min (div_nonneg (by linarith) hr.le) Real.pi_nonneg
    have hθπ : curlTheta radius (x - foldX) ≤ Real.pi := min_le_right _ _
    have hs0 : 0 ≤ Real.sin (curlTheta radius (x - foldX)) :=
      Real.sin_nonneg_of_nonneg_of_le_pi hθ0 hθπ
    have hsle : Real.sin (curlTheta radius (x - foldX)) ≤
        curlTheta radius (x - foldX) := Real.sin_le hθ0
    have hθled : curlTheta radius (x - foldX) ≤ (x - foldX) / radius :=
      min_le_left _ _
    have hkey : radius * Real.sin (curlTheta radius (x - foldX)) ≤ x - foldX := by
      have h1 : radius * Real.sin (curlTheta radius (x - foldX)) ≤
          radius * ((x - foldX) / radius) :=
        mul_le_mul_of_nonneg_left (le_trans hsle hθled) hr.le
      have h2 : radius * ((x - foldX) / radius) = x - foldX := by
        field_simp
      linarith
    have hpos : 0 ≤ radius * Real.sin (curlTheta radius (x - foldX)) :=
      mul_nonneg hr.le hs0
    rw [curlVert_pos_eq foldX radius darken b x y u v h]
    refine ⟨rfl, by nlinarith, by nlinarith, by nlinarith, by nlinarith⟩
  · rw [curlVert_nonpos_eq foldX radius darken b x y u v h]
    refine ⟨rfl, by nlinarith, by nlinarith, by nlinarith, by nlinarith⟩

/-- Witness for C5: concrete NDC bounds at foldX = 1/2, vertex (3/4, 1/4). -/
theorem claim5_ndc_in_square_witness :
    (curlVert (1/2) CURL_RADIUS 0.35 false (3/4, 1/4) (3/4, 1/4)).ndcY =
      1 - (1/4) * 2 ∧
    -1 ≤ (curlVert (1/2) CURL_RADIUS 0.35 false (3/4, 1/4) (3/4, 1/4)).ndcX ∧
    (curlVert (1/2) CURL_RADIUS 0.35 false (3/4, 1/4) (3/4, 1/4)).ndcX ≤ 1 ∧
    -1 ≤ (curlVert (1/2) CURL_RADIUS 0.35 false (3/4, 1/4) (3/4, 1/4)).ndcY ∧
    (curlVert (1/2) CURL_RADIUS 0.35 false (3/4, 1/4) (3/4, 1/4)).ndcY ≤ 1 :=
  claim5_ndc_in_square (1/2) CURL_RADIUS 0.35 false (3/4) (1/4) (3/4) (1/4)
    (by norm_num) (by norm_num) (by norm_num) (by norm_num) (by norm_num)
    (by norm_num) (by norm_num [CURL_RADIUS])

/-- C6: when the fold position is at least 1 and the vertex x coordinate
is at most 1 (true of every mesh vertex), dx is nonpositive, so the curl
draw produces exactly the flat draw's geometry on every output field and
a zero shadow factor. -/
theorem claim6_curl_identity_at_full_fold (foldX radius darken : ℝ)
    (b : Bool) (x y u v : ℝ) (hx : x ≤ 1) (hf : 1 ≤ foldX) :
    (curlVert foldX radius darken b (x, y) (u, v)).ndcX =
      (flatVert (x, y) (u, v)).ndcX ∧
    (curlVert foldX radius darken b (x, y) (u, v)).ndcY =
      (flatVert (x, y) (u, v)).ndcY ∧
    (curlVert foldX radius darken b (x, y) (u, v)).ndcZ =
      (flatVert (x, y) (u, v)).ndcZ ∧
    (curlVert foldX radius darken b (x, y) (u, v)).uvX =
      (flatVert (x, y) (u, v)).uvX ∧
    (curlVert foldX radius darken b (x, y) (u, v)).uvY =
      (flatVert (x, y) (u, v)).uvY ∧
    (curlVert foldX radius darken b (x, y) (u, v)).shadow = 0 := by
  have h : ¬ 0 < x - foldX := by linarith
  rw [curlVert_nonpos_eq foldX radius darken b x y u v h]
  refine ⟨rfl, rfl, by norm_num [flatVert], rfl, rfl, rfl⟩

/-- Witness for C6: at foldX = 1 the curled back-face draw of the
bottom-right mesh corner reproduces the flat draw exactly. -/
theorem claim6_curl_identity_at_full_fold_witness :
    (curlVert 1 CURL_RADIUS 0.15 true (1, 1) (1, 1)).ndcX =
      (flatVert (1, 1) (1, 1)).ndcX ∧
    (curlVert 1 CURL_RADIUS 0.15 true (1, 1) (1, 1)).ndcY =
      (flatVert (1, 1) (1, 1)).ndcY ∧
    (curlVert 1 CURL_RADIUS 0.15 true (1, 1) (1, 1)).ndcZ =
      (flatVert (1, 1) (1, 1)).ndcZ ∧
    (curlVert 1 CURL_RADIUS 0.15 true (1, 1) (1, 1)).uvX =
      (flatVert (1, 1) (1, 1)).uvX ∧
    (curlVert 1 CURL_RADIUS 0.15 true (1, 1) (1, 1)).uvY =
      (flatVert (1, 1) (1, 1)).uvY ∧
    (curlVert 1 CURL_RADIUS 0.15 true (1, 1) (1, 1)).shadow = 0 :=
  claim6_curl_identity_at_full_fold 1 CURL_RADIUS 0.15 true 1 1 1 1
    le_rfl le_rfl

/-- C7: for a positive radius and positive darken intensity, the clamped
curl angle is monotone non-decreasing in dx; the shader's shadow factor
equals the standalone shadowFactor function of dx; the shadow factor lies
between 0 and darken for every dx; and it attains the value darken at
exactly one dx, namely dx = radius * (pi / 2). -/
theorem claim7_theta_monotone_shadow_extremum (radius darken : ℝ)
    (hr : 0 < radius) (hd : 0 < darken) :
    (∀ d1 d2 : ℝ, d1 ≤ d2 → curlTheta radius d1 ≤ curlTheta radius d2) ∧
    (∀ (f x y u v : ℝ) (b : Bool),
        (curlVert f radius darken b (x, y) (u, v)).shadow =
          shadowFactor radius darken (x - f)) ∧
    (∀ dx : ℝ, 0 ≤ shadowFactor radius darken dx ∧
        shadowFactor radius darken dx ≤ darken) ∧
    (∀ dx : ℝ, shadowFactor radius darken dx = darken ↔
        dx = radius * (Real.pi / 2)) := by
  have hθ0 : ∀ dx : ℝ, 0 < dx → 0 ≤ curlTheta radius dx := fun dx hdx =>
    le_min (div_nonneg hdx.le hr.le) Real.pi_nonneg
  have hθπ : ∀ dx : ℝ, curlTheta radius dx ≤ Real.pi := fun dx =>
    min_le_right _ _
  refine ⟨?_, ?_, ?_, ?_⟩
  · intro d1 d2 h12
    exact min_le_min (by gcongr) le_rfl
  · intro f x y u v b
    by_cases h : 0 < x - f <;> simp [curlVert, shadowFactor, h]
  · intro dx
    unfold shadowFactor
    split_ifs with h
    · have hs0 : 0 ≤ Real.sin (curlTheta radius dx) :=
        Real.sin_nonneg_of_nonneg_of_le_pi (hθ0 dx h) (hθπ dx)
      have hs1 : Real.sin (curlTheta radius dx) ≤ 1 := Real.sin_le_one _
      exact ⟨mul_nonneg hd.le hs0, by nlinarith⟩
    · exact ⟨le_rfl, hd.le⟩
  · intro dx
    constructor
    · intro he
      by_cases h : 0 < dx
      · simp only [shadowFactor, if_pos h] at he
        have hsin : Real.sin (curlTheta radius dx) = 1 := by
          have h1 : darken * Real.sin (curlTheta radius dx) = darken * 1 := by
            rw [mul_one]; exact he
          exact mul_left_cancel₀ (ne_of_gt hd) h1
        have h0 := hθ0 dx h
        have hπ := hθπ dx
        have hhalf : curlTheta radius dx = Real.pi / 2 := by
          rcases le_or_lt (curlTheta radius dx) (Real.pi / 2) with hle | hgt
          · refine Real.strictMonoOn_sin.injOn ?_ ?_ ?_
            · exact Set.mem_Icc.mpr ⟨by linarith [Real.pi_pos], hle⟩
            · exact Set.mem_Icc.mpr ⟨by linarith [Real.pi_pos], le_rfl⟩
            · rw [hsin, Real.sin_pi_div_two]
          · have hmir : Real.sin (Real.pi - curlTheta radius dx) = 1 := by
              rw [Real.sin_pi_sub]; exact hsin
            have heq2 : Real.pi - curlTheta radius dx = Real.pi / 2 := by
              refine Real.strictMonoOn_sin.injOn ?_ ?_ ?_
              · exact Set.mem_Icc.mpr ⟨by linarith [Real.pi_pos], by linarith⟩
              · exact Set.mem_Icc.mpr ⟨by linarith [Real.pi_pos], le_rfl⟩
              · rw [hmir, Real.sin_pi_div_two]
            linarith
        have hlt : dx / radius < Real.pi := by
          rcases lt_or_le (dx / radius) Real.pi with hl | hge
          · exact hl
          · exfalso
            have hmin : curlTheta radius dx = Real.pi := min_eq_right hge
            rw [hmin] at hhalf
            linarith [Real.pi_pos]
        have hmin2 : curlTheta radius dx = dx / radius := min_eq_left hlt.le
        have heq : dx / radius = Real.pi / 2 := by linarith [hmin2, hhalf]
        rw [div_eq_iff (ne_of_gt hr)] at heq
        linarith
      · exfalso
        simp only [shadowFactor, if_neg h] at he
        linarith
    · intro he
      subst he
      have hpos : 0 < radius * (Real.pi / 2) :=
        mul_pos hr (by positivity)
      have hθeq : curlTheta radius (radius * (Real.pi / 2)) = Real.pi / 2 := by
        unfold curlTheta
        rw [mul_div_cancel_left₀ _ (ne_of_gt hr)]
        exact min_eq_left (by linarith [Real.pi_pos])
      simp only [shadowFactor, if_pos hpos, hθeq, Real.sin_pi_div_two,
        mul_one]

/-- Witness for C7: at radius = darken = 1 the shadow factor reaches 1 at
dx = 1 * (pi / 2), and the angle is monotone between 0 and 1. -/
theorem claim7_theta_monotone_shadow_extremum_witness :
    shadowFactor 1 1 (1 * (Real.pi / 2)) = 1 ∧
    curlTheta 1 0 ≤ curlTheta 1 1 := by
  have h := claim7_theta_monotone_shadow_extremum 1 1 one_pos one_pos
  exact ⟨(h.2.2.2 (1 * (Real.pi / 2))).mpr rfl, h.1 0 1 (by norm_num)⟩

end PageCurl
